import Mathlib

/-!
Verification of the face-capture application (src/src/App.js).

The file shallowly embeds the component's capture pipeline (`captureImage`,
lines 113-181), the annotation-loop state update (`handleVideoOnPlay`,
lines 85-108) and the capture-button condition (line 231).  Pixel
coordinates and confidence scores are JavaScript numbers; they are
modelled as rationals.  Canvas surfaces are modelled as colour-valued
functions on rational points; 2D-context drawing primitives become
pointwise updates of those functions.
-/

namespace FaceApp

/-- A pixel colour.  The model needs white and red (the colours the code
draws with), the transparent colour of a freshly created canvas, and
arbitrary other colours for webcam pixels. -/
inductive Color where
  | white
  | red
  | transparent
  | rgb (r g b : ℕ)
deriving DecidableEq

/-- A point of the continuous coordinate plane used by the 2D context. -/
abbrev Point : Type := ℚ × ℚ

/-- A video frame: an opaque renderable image source (the `video` element),
read as a colour at each point. -/
def Frame : Type := Point → Color

/-- A canvas: logical dimensions plus its current pixel contents. -/
@[ext]
structure Canvas where
  width : ℚ
  height : ℚ
  pix : Point → Color

/-- A detection bounding box, the `_box` of a face-api detection:
`{x, y, width, height}` in pixels, top-left origin. -/
structure Box where
  x : ℚ
  y : ℚ
  width : ℚ
  height : ℚ
deriving DecidableEq

/-- One detection result: its bounding box (`_box`) and confidence
score (`_score`). -/
structure Detection where
  box : Box
  score : ℚ
deriving DecidableEq

/-- Line 11: `const videoHeight = 480`. -/
def videoHeight : ℚ := 480

/-- Line 12: `const videoWidth = 640`. -/
def videoWidth : ℚ := 640

/-- Line 122: `const padding = 40`. -/
def padding : ℚ := 40

/-- Line 149: `const passportWidth = 400`. -/
def passportWidth : ℚ := 400

/-- Line 150: `const passportHeight = 500`. -/
def passportHeight : ℚ := 500

/-- A rectangle, as source region of a `drawImage` call. -/
structure Rect where
  x : ℚ
  y : ℚ
  w : ℚ
  h : ℚ
deriving DecidableEq

/-- Lines 143-146 of `captureImage`: the padded crop rectangle computed
around a face box,
`faceX = Math.max(face.x - padding, 0)`,
`faceY = Math.max(face.y - padding, 0)`,
`faceWidth = Math.min(face.width + padding * 2, videoWidth)`,
`faceHeight = Math.min(face.height + padding * 2, videoHeight)`. -/
def cropRect (face : Box) : Rect :=
  { x := max (face.x - padding) 0
    y := max (face.y - padding) 0
    w := min (face.width + padding * 2) videoWidth
    h := min (face.height + padding * 2) videoHeight }

/-- Membership of a point in the video-sized drawing region
[0, videoWidth) × [0, videoHeight). -/
def inVideoRegion (p : Point) : Prop :=
  0 ≤ p.1 ∧ p.1 < videoWidth ∧ 0 ≤ p.2 ∧ p.2 < videoHeight

instance (p : Point) : Decidable (inVideoRegion p) := by
  unfold inVideoRegion; infer_instance

/-- Line 125: `ctx.drawImage(video, 0, 0, videoWidth, videoHeight)` draws the
current video frame over the region [0,640) × [0,480) of the canvas; the
requested webcam resolution equals the destination size, so the frame is
sampled at the destination coordinates. -/
def drawFrame (c : Canvas) (video : Frame) : Canvas :=
  { c with pix := fun p => if inVideoRegion p then video p else c.pix p }

/-- The region painted red for one detection by lines 128-140: the 2px-wide
accuracy stroke from (x, y−10) to (x+width, y−10), together with the region
of the 16px score label drawn at (x, y−15).  Glyph-exact font rasterization
is outside the model; the label is abstracted as a box above the stroke. -/
def accuracyMark (det : Detection) (p : Point) : Prop :=
  (det.box.x ≤ p.1 ∧ p.1 ≤ det.box.x + det.box.width ∧
   det.box.y - 11 ≤ p.2 ∧ p.2 ≤ det.box.y - 9) ∨
  (det.box.x ≤ p.1 ∧ p.1 ≤ det.box.x + 130 ∧
   det.box.y - 31 ≤ p.2 ∧ p.2 ≤ det.box.y - 15)

instance (det : Detection) (p : Point) : Decidable (accuracyMark det p) := by
  unfold accuracyMark; infer_instance

/-- One iteration of the `detections.forEach` loop of lines 128-140: paint
the accuracy stroke and label of one detection, in red, onto the canvas. -/
def annotate (c : Canvas) (det : Detection) : Canvas :=
  { c with pix := fun p => if accuracyMark det p then Color.red else c.pix p }

/-- Lines 157-158: `ctx.fillRect(x, y, w, h)` with the current fill style. -/
def fillRect (c : Canvas) (x y w h : ℚ) (col : Color) : Canvas :=
  { c with pix := fun p =>
      if x ≤ p.1 ∧ p.1 < x + w ∧ y ≤ p.2 ∧ p.2 < y + h then col else c.pix p }

/-- Lines 151-153: `document.createElement("canvas")` with the given
dimensions; a fresh canvas is fully transparent. -/
def createCanvas (w h : ℚ) : Canvas :=
  { width := w, height := h, pix := fun _ => Color.transparent }

/-- Lines 161-165: the nine-argument
`drawImage(src, sx, sy, sw, sh, dx, dy, dw, dh)`: the source rectangle r is
stretched (non-uniformly) onto the destination rectangle; a destination
point samples the source at the corresponding affinely mapped point. -/
def drawImageScaled (dst src : Canvas) (r : Rect) (dx dy dw dh : ℚ) : Canvas :=
  { dst with pix := fun p =>
      if dx ≤ p.1 ∧ p.1 < dx + dw ∧ dy ≤ p.2 ∧ p.2 < dy + dh then
        src.pix (r.x + (p.1 - dx) * r.w / dw, r.y + (p.2 - dy) * r.h / dh)
      else dst.pix p }

/-- Lines 148-165: allocate the 400×500 passport canvas, fill it with
white, and draw the crop rectangle r of the working canvas onto it,
stretched to the full 400×500 extent. -/
def passportOf (src : Canvas) (r : Rect) : Canvas :=
  drawImageScaled
    (fillRect (createCanvas passportWidth passportHeight)
      0 0 passportWidth passportHeight Color.white)
    src r 0 0 passportWidth passportHeight

/-- The component state read and written by `captureImage`:
`videoRef.current` and `canvasRef.current` (absent refs are `none`), and the
`detections` state array. -/
structure CaptureState where
  videoRef : Option Frame
  canvasRef : Option Canvas
  detections : List Detection

/-- The observable result of one `captureImage` call: the component state
afterwards (the working canvas may have been drawn on), the passport canvas
produced (if any), and the list of file downloads triggered. -/
structure CaptureResult where
  state : CaptureState
  output : Option Canvas
  downloads : List String

/-- The result of a `captureImage` call that returns without drawing,
producing, or downloading anything. -/
def noopResult (s : CaptureState) : CaptureResult :=
  { state := s, output := none, downloads := [] }

/-- Lines 113-181, `captureImage`, parameterized by the PNG encoder backing
`passportCanvas.toBlob` (which may yield no blob).  Line 114 returns at an
absent video or canvas ref; line 120 guards on `detections.length > 0`;
lines 125-140 draw the frame and every detection's accuracy mark onto the
working canvas; line 121 takes `detections[0]?._box` as the face; lines
142-165 build the passport canvas; lines 168-179 download
"passport_photo.png" exactly when the encoder produces a blob. -/
def captureImage {β : Type} (encode : Canvas → Option β) (s : CaptureState) :
    CaptureResult :=
  match s.videoRef, s.canvasRef with
  | some video, some canvas =>
    match s.detections with
    | [] => noopResult s
    | d :: _ =>
      let ctx2 := s.detections.foldl annotate (drawFrame canvas video)
      let passport := passportOf ctx2 (cropRect d.box)
      { state := { s with canvasRef := some ctx2 }
        output := some passport
        downloads := match encode passport with
          | some _ => ["passport_photo.png"]
          | none => [] }
  | _, _ => noopResult s

/-- Lines 85-108 of `handleVideoOnPlay`, restricted to the stored
`detections` state: one timer tick receives the faces detected on the
current frame and updates the stored state with the rescaled result
(`setDetections(resizeResults(detectedFaces, displaySize))`) only when
`detectedFaces.length > 0`; otherwise the stored state is untouched. -/
def tickDetections (resizeResults : List Detection → List Detection)
    (detectedFaces : List Detection) (detections : List Detection) :
    List Detection :=
  if detectedFaces.length > 0 then resizeResults detectedFaces else detections

/-- Line 231: the capture button is rendered exactly when
`detections.some((det) => det?._score > 0.7)`. -/
def showCaptureButton (detections : List Detection) : Bool :=
  detections.any (fun det => det.score > 0.7)

/-- A concrete capture state with one high-confidence detection, present
video and canvas refs, used to instantiate the capture theorems. -/
def demoState : CaptureState :=
  { videoRef := some (fun _ => Color.white)
    canvasRef := some (createCanvas videoWidth videoHeight)
    detections := [⟨⟨300, 200, 100, 120⟩, 93/100⟩] }

/-- A concrete first detection whose confidence is NOT the highest of its
sequence, for the primary-face claim. -/
def detSep0 : Detection := ⟨⟨0, 0, 100, 100⟩, 1/2⟩

/-- A concrete second detection with strictly higher confidence than
detSep0 and a different bounding box. -/
def detSep1 : Detection := ⟨⟨400, 300, 100, 100⟩, 9/10⟩

/-- A concrete all-white video frame. -/
def frameSep : Frame := fun _ => Color.white

/-- A concrete fresh working canvas of the video dimensions. -/
def canvasSep : Canvas := createCanvas videoWidth videoHeight

/-- A concrete capture state holding two detections whose highest-confidence
element is not first. -/
def sepState : CaptureState :=
  { videoRef := some frameSep
    canvasRef := some canvasSep
    detections := [detSep0, detSep1] }

end FaceApp

namespace FaceApp

lemma captureImage_run {β : Type} (encode : Canvas → Option β)
    (s : CaptureState) (video : Frame) (canvas : Canvas) (d : Detection)
    (ds : List Detection) (hv : s.videoRef = some video)
    (hc : s.canvasRef = some canvas) (hd : s.detections = d :: ds) :
    captureImage encode s =
      { state := { s with canvasRef := some (s.detections.foldl annotate
                                              (drawFrame canvas video)) }
        output := some (passportOf (s.detections.foldl annotate
                                     (drawFrame canvas video)) (cropRect d.box))
        downloads := match encode (passportOf (s.detections.foldl annotate
                        (drawFrame canvas video)) (cropRect d.box)) with
                     | some _ => ["passport_photo.png"]
                     | none => [] } := by
  unfold captureImage
  rw [hv, hc]
  simp only [hd]

lemma captureImage_stuck {β : Type} (encode : Canvas → Option β)
    (s : CaptureState)
    (h : s.videoRef = none ∨ s.canvasRef = none ∨ s.detections = []) :
    captureImage encode s = noopResult s := by
  unfold captureImage
  rcases h with h | h | h
  · rw [h]
  · rw [h]
    cases s.videoRef <;> rfl
  · cases s.videoRef <;> cases s.canvasRef <;> simp [h]

lemma drawFrame_width (c : Canvas) (v : Frame) :
    (drawFrame c v).width = c.width := rfl

lemma drawFrame_height (c : Canvas) (v : Frame) :
    (drawFrame c v).height = c.height := rfl

lemma foldl_annotate_width (dets : List Detection) (c : Canvas) :
    (dets.foldl annotate c).width = c.width := by
  induction dets generalizing c with
  | nil => rfl
  | cons d ds ih => rw [List.foldl_cons, ih]; rfl

lemma foldl_annotate_height (dets : List Detection) (c : Canvas) :
    (dets.foldl annotate c).height = c.height := by
  induction dets generalizing c with
  | nil => rfl
  | cons d ds ih => rw [List.foldl_cons, ih]; rfl

lemma foldl_annotate_pix (dets : List Detection) (c : Canvas) (p : Point) :
    (dets.foldl annotate c).pix p =
      if ∃ d ∈ dets, accuracyMark d p then Color.red else c.pix p := by
  induction dets generalizing c with
  | nil => simp
  | cons d ds ih =>
    rw [List.foldl_cons, ih]
    by_cases h : accuracyMark d p
    · simp [annotate, List.exists_mem_cons_iff, h]
    · simp [annotate, List.exists_mem_cons_iff, h]

/-- C1 (amended): for every bounding box the crop origin is nonnegative and
the crop width and height do not exceed the frame dimensions (640 and 480).
The stronger bounds cropX + cropWidth ≤ 640 and cropY + cropHeight ≤ 480 do
not hold; see the counterexample. -/
theorem crop_clamping_amended (b : Box) :
    0 ≤ (cropRect b).x ∧ 0 ≤ (cropRect b).y ∧
    (cropRect b).w ≤ videoWidth ∧ (cropRect b).h ≤ videoHeight :=
  ⟨le_max_right _ _, le_max_right _ _, min_le_right _ _, min_le_right _ _⟩

/-- C1 counterexample: for the box {x:600, y:440, width:100, height:100}
(which lies mostly inside the 640×480 frame as a numeric box), the computed
crop has cropX + cropWidth = 560 + 180 = 740 > 640 and
cropY + cropHeight = 400 + 180 = 580 > 480, refuting the claimed clamping of
the crop extent to the frame. -/
theorem crop_clamping_counterexample :
    ¬ ((cropRect ⟨600, 440, 100, 100⟩).x + (cropRect ⟨600, 440, 100, 100⟩).w ≤ videoWidth ∧
       (cropRect ⟨600, 440, 100, 100⟩).y + (cropRect ⟨600, 440, 100, 100⟩).h ≤ videoHeight) := by
  simp only [cropRect, videoWidth, videoHeight, padding]
  norm_num

/-- C2: the crop rectangle is computed exactly by the formulas
cropX = max(x − 40, 0), cropY = max(y − 40, 0),
cropWidth = min(width + 80, 640), cropHeight = min(height + 80, 480);
and on the box {x:10, y:10, width:50, height:50} it evaluates to
{x:0, y:0, w:130, h:130}. -/
theorem crop_formula (b : Box) :
    cropRect b = ⟨max (b.x - 40) 0, max (b.y - 40) 0,
                  min (b.width + 80) 640, min (b.height + 80) 480⟩ ∧
    cropRect ⟨10, 10, 50, 50⟩ = ⟨0, 0, 130, 130⟩ := by
  constructor
  · simp only [cropRect, videoWidth, videoHeight, padding]
    norm_num
  · simp only [cropRect, videoWidth, videoHeight, padding]
    norm_num

/-- C5: invoking capture with an empty detections sequence is a no-op: no
output canvas, no download, no exception (the function is total), and the
component state is returned unchanged. -/
theorem capture_noop_on_empty {β : Type} (encode : Canvas → Option β)
    (s : CaptureState) (h : s.detections = []) :
    captureImage encode s = noopResult s :=
  captureImage_stuck encode s (Or.inr (Or.inr h))

/-- C5 witness: capture on a concrete state with present refs and empty
detections returns the no-op result. -/
theorem capture_noop_on_empty_witness :
    captureImage (fun _ => (none : Option ℕ))
        { videoRef := some (fun _ => Color.white)
          canvasRef := some (createCanvas videoWidth videoHeight)
          detections := [] } =
      noopResult
        { videoRef := some (fun _ => Color.white)
          canvasRef := some (createCanvas videoWidth videoHeight)
          detections := [] } :=
  capture_noop_on_empty (fun _ => (none : Option ℕ)) _ rfl

/-- C10: if the video ref or the canvas ref is absent, capture returns
immediately: no output, no download, state unchanged, even with non-empty
detections. -/
theorem capture_noop_on_missing_ref {β : Type} (encode : Canvas → Option β)
    (s : CaptureState) (h : s.videoRef = none ∨ s.canvasRef = none) :
    captureImage encode s = noopResult s :=
  captureImage_stuck encode s (h.imp id Or.inl)

/-- C10 witness: capture with a missing video ref and one stored detection
returns the no-op result. -/
theorem capture_noop_on_missing_ref_witness :
    captureImage (fun _ => (none : Option ℕ))
        { videoRef := none
          canvasRef := some (createCanvas videoWidth videoHeight)
          detections := [⟨⟨300, 200, 100, 120⟩, 93/100⟩] } =
      noopResult
        { videoRef := none
          canvasRef := some (createCanvas videoWidth videoHeight)
          detections := [⟨⟨300, 200, 100, 120⟩, 93/100⟩] } :=
  capture_noop_on_missing_ref (fun _ => (none : Option ℕ)) _ (Or.inl rfl)

/-- C8: a tick of the annotation loop leaves the stored detections
unchanged when the detector returns zero faces, and overwrites them (with
the rescaled result) exactly when the detector result is non-empty. -/
theorem tick_retains_state (resizeResults : List Detection → List Detection)
    (detectedFaces detections : List Detection) :
    (detectedFaces = [] →
       tickDetections resizeResults detectedFaces detections = detections) ∧
    (detectedFaces ≠ [] →
       tickDetections resizeResults detectedFaces detections =
         resizeResults detectedFaces) := by
  constructor
  · intro h
    simp [tickDetections, h]
  · intro h
    simp [tickDetections, List.length_pos.mpr h]

/-- C8 witness: an empty detector result leaves a concrete stored state in
place. -/
theorem tick_retains_state_witness :
    tickDetections id [] [⟨⟨300, 200, 100, 120⟩, 93/100⟩] =
      [⟨⟨300, 200, 100, 120⟩, 93/100⟩] :=
  (tick_retains_state id [] [⟨⟨300, 200, 100, 120⟩, 93/100⟩]).1 rfl

/-- C9: the capture button is rendered exactly when some stored detection
has confidence score strictly greater than 0.7. -/
theorem capture_button_iff (detections : List Detection) :
    showCaptureButton detections = true ↔
      ∃ det ∈ detections, det.score > 0.7 := by
  simp [showCaptureButton]

/-- C7: a download is triggered only when the encoder produced a blob from
the output canvas; if encoding yields no data, no download happens; and
when encoding succeeds the single download "passport_photo.png" happens. -/
theorem download_only_after_encode {β : Type} (encode : Canvas → Option β)
    (s : CaptureState) :
    ((captureImage encode s).downloads ≠ [] →
       ∃ out b, (captureImage encode s).output = some out ∧
         encode out = some b) ∧
    (∀ out, (captureImage encode s).output = some out → encode out = none →
       (captureImage encode s).downloads = []) ∧
    (∀ out b, (captureImage encode s).output = some out →
       encode out = some b →
       (captureImage encode s).downloads = ["passport_photo.png"]) := by
  cases hv : s.videoRef with
  | none =>
    rw [captureImage_stuck encode s (Or.inl hv)]
    simp [noopResult]
  | some video =>
    cases hc : s.canvasRef with
    | none =>
      rw [captureImage_stuck encode s (Or.inr (Or.inl hc))]
      simp [noopResult]
    | some canvas =>
      cases hd : s.detections with
      | nil =>
        rw [captureImage_stuck encode s (Or.inr (Or.inr hd))]
        simp [noopResult]
      | cons d ds =>
        rw [captureImage_run encode s video canvas d ds hv hc hd]
        cases he : encode (passportOf (s.detections.foldl annotate
            (drawFrame canvas video)) (cropRect d.box)) with
        | none =>
          refine ⟨fun hne => absurd ?_ hne, fun out hout _ => ?_,
                  fun out b hout hb => ?_⟩
          · simp [he]
          · simp [he]
          · cases hout
            rw [he] at hb
            cases hb
        | some blob =>
          refine ⟨fun _ => ⟨_, blob, rfl, he⟩, fun out hout hnone => ?_,
                  fun out b hout _ => ?_⟩
          · cases hout
            rw [he] at hnone
            cases hnone
          · simp [he]

/-- C7 witness: with an encoder that always fails, capture on a concrete
state with one detection triggers no download. -/
theorem download_only_after_encode_witness :
    (captureImage (fun _ => (none : Option ℕ)) demoState).downloads = [] :=
  (download_only_after_encode (fun _ => (none : Option ℕ)) demoState).2.1
    _ rfl rfl

/-- C3: with more than one stored detection, the capture output is the
passport canvas built from the crop of element 0's box (irrespective of
any confidence ordering); moreover on the concrete pair detSep0, detSep1 in
which the second element has the strictly highest confidence, the crop of
element 0 differs from the crop of the highest-confidence element and the
output is derived from element 0's crop. -/
theorem primary_face_first {β : Type} (encode : Canvas → Option β)
    (s : CaptureState) (video : Frame) (canvas : Canvas)
    (hv : s.videoRef = some video) (hc : s.canvasRef = some canvas)
    (hlen : 1 < s.detections.length) :
    (∃ d rest, s.detections = d :: rest ∧
       (captureImage encode s).output =
         some (passportOf (s.detections.foldl annotate
           (drawFrame canvas video)) (cropRect d.box))) ∧
    detSep0.score < detSep1.score ∧
    cropRect detSep0.box ≠ cropRect detSep1.box ∧
    (captureImage encode sepState).output =
      some (passportOf (sepState.detections.foldl annotate
        (drawFrame canvasSep frameSep)) (cropRect detSep0.box)) := by
  refine ⟨?_, by norm_num [detSep0, detSep1], ?_, ?_⟩
  · obtain ⟨d, rest, hd⟩ :=
      List.exists_cons_of_ne_nil
        (List.length_pos.mp (show 0 < s.detections.length by omega))
    exact ⟨d, rest, hd,
      by rw [captureImage_run encode s video canvas d rest hv hc hd]⟩
  · intro h
    rw [cropRect, cropRect, Rect.mk.injEq] at h
    norm_num [detSep0, detSep1, padding] at h
  · rw [captureImage_run encode sepState frameSep canvasSep detSep0 [detSep1]
      rfl rfl rfl]

/-- C3 witness: on the concrete state sepState (two detections, second
strictly more confident), the output is the passport built from element 0's
crop. -/
theorem primary_face_first_witness :
    (captureImage (fun _ => (none : Option ℕ)) sepState).output =
      some (passportOf (sepState.detections.foldl annotate
        (drawFrame canvasSep frameSep)) (cropRect detSep0.box)) :=
  (primary_face_first (fun _ => (none : Option ℕ)) sepState frameSep canvasSep
    rfl rfl (by norm_num [sepState])).2.2.2

/-- C4: with refs present and a non-empty detections sequence, capture
produces an output canvas of exactly 400 × 500 pixels, built by compositing
the cropped region onto a background canvas of the same size whose every
in-bounds pixel is white, whatever the detected face's size or position. -/
theorem output_size_invariant {β : Type} (encode : Canvas → Option β)
    (s : CaptureState) (video : Frame) (canvas : Canvas)
    (hv : s.videoRef = some video) (hc : s.canvasRef = some canvas)
    (hne : s.detections ≠ []) :
    ∃ out, (captureImage encode s).output = some out ∧
      out.width = 400 ∧ out.height = 500 ∧
      ∃ bg src r, bg.width = 400 ∧ bg.height = 500 ∧
        (∀ p : Point, 0 ≤ p.1 → p.1 < 400 → 0 ≤ p.2 → p.2 < 500 →
           bg.pix p = Color.white) ∧
        out = drawImageScaled bg src r 0 0 passportWidth passportHeight := by
  obtain ⟨d, ds, hd⟩ := List.exists_cons_of_ne_nil hne
  rw [captureImage_run encode s video canvas d ds hv hc hd]
  refine ⟨_, rfl, rfl, rfl,
    fillRect (createCanvas passportWidth passportHeight)
      0 0 passportWidth passportHeight Color.white,
    s.detections.foldl annotate (drawFrame canvas video), cropRect d.box,
    rfl, rfl, ?_, rfl⟩
  intro p h1 h2 h3 h4
  show (if 0 ≤ p.1 ∧ p.1 < 0 + passportWidth ∧ 0 ≤ p.2 ∧ p.2 < 0 + passportHeight
        then Color.white
        else (createCanvas passportWidth passportHeight).pix p) = Color.white
  rw [if_pos]
  refine ⟨h1, ?_, h3, ?_⟩
  · rw [zero_add]
    exact h2
  · rw [zero_add]
    exact h4

/-- C4 witness: on the concrete one-detection state demoState, the capture
output exists, measures 400 × 500 and is composited onto a white
background. -/
theorem output_size_invariant_witness :
    ∃ out, (captureImage (fun _ => (none : Option ℕ)) demoState).output =
        some out ∧
      out.width = 400 ∧ out.height = 500 ∧
      ∃ bg src r, bg.width = 400 ∧ bg.height = 500 ∧
        (∀ p : Point, 0 ≤ p.1 → p.1 < 400 → 0 ≤ p.2 → p.2 < 500 →
           bg.pix p = Color.white) ∧
        out = drawImageScaled bg src r 0 0 passportWidth passportHeight :=
  output_size_invariant (fun _ => (none : Option ℕ)) demoState
    (fun _ => Color.white) (createCanvas videoWidth videoHeight) rfl rfl
    (List.cons_ne_nil _ _)

/-- C6: a second capture against the state left by a first capture (same
frame, same detections; the working canvas was drawn on by the first call)
produces an output canvas equal to the first one: the mutation of the
working canvas does not change the second capture's pixels, because the
frame redraw covers the canvas before the crop is taken. -/
theorem capture_idempotent {β : Type} (encode : Canvas → Option β)
    (s : CaptureState) :
    (captureImage encode (captureImage encode s).state).output =
      (captureImage encode s).output := by
  cases hv : s.videoRef with
  | none =>
    rw [captureImage_stuck encode s (Or.inl hv)]
    show (captureImage encode s).output = (noopResult s).output
    rw [captureImage_stuck encode s (Or.inl hv)]
  | some video =>
    cases hc : s.canvasRef with
    | none =>
      rw [captureImage_stuck encode s (Or.inr (Or.inl hc))]
      show (captureImage encode s).output = (noopResult s).output
      rw [captureImage_stuck encode s (Or.inr (Or.inl hc))]
    | some canvas =>
      cases hd : s.detections with
      | nil =>
        rw [captureImage_stuck encode s (Or.inr (Or.inr hd))]
        show (captureImage encode s).output = (noopResult s).output
        rw [captureImage_stuck encode s (Or.inr (Or.inr hd))]
      | cons d ds =>
        have hfix : s.detections.foldl annotate
            (drawFrame (s.detections.foldl annotate (drawFrame canvas video))
              video) =
            s.detections.foldl annotate (drawFrame canvas video) := by
          apply Canvas.ext
          · rw [foldl_annotate_width, drawFrame_width]
          · rw [foldl_annotate_height, drawFrame_height]
          · funext p
            rw [foldl_annotate_pix, foldl_annotate_pix]
            by_cases hm : ∃ e ∈ s.detections, accuracyMark e p
            · rw [if_pos hm, if_pos hm]
            · rw [if_neg hm, if_neg hm]
              by_cases hr : inVideoRegion p
              · simp [drawFrame, hr]
              · simp only [drawFrame]
                rw [if_neg hr, if_neg hr, foldl_annotate_pix, if_neg hm]
                simp [drawFrame, hr]
        rw [captureImage_run encode s video canvas d ds hv hc hd]
        show (captureImage encode
            { s with canvasRef := some (s.detections.foldl annotate
                (drawFrame canvas video)) }).output =
          some (passportOf (s.detections.foldl annotate
            (drawFrame canvas video)) (cropRect d.box))
        rw [captureImage_run encode
            { s with canvasRef := some (s.detections.foldl annotate
                (drawFrame canvas video)) }
            video (s.detections.foldl annotate (drawFrame canvas video)) d ds
            hv rfl hd]
        show some (passportOf (s.detections.foldl annotate
            (drawFrame (s.detections.foldl annotate (drawFrame canvas video))
              video)) (cropRect d.box)) = _
        rw [hfix]

end FaceApp
